import Mathlib

/-!
Shallow embedding of the toponym-resolution core of `src/dashboard.py`.

The program fetches a text, extracts location-labelled entity spans,
resolves each toponym through DBpedia lookup (`dbpedia_lookup`,
`dbpedia_top1`), geocodes the resolved entity reference through a SPARQL
query (`geocode`), and aggregates the outcomes (`count_table`,
`fetch_and_map`).

External HTTP services are modelled as an environment `Env` mapping each
request to either a parsed response or a transport failure; Python
exceptions are modelled with `Except PyError`.  Latitude/longitude values
travel as strings and are parsed with a model of Python `float` over plain
decimal literals (`pyFloat`), returning `ℚ`.
-/

namespace Dashboard

/-- Python exceptions that the embedded code can raise:
`httpError` models `requests` transport failures / `raise_for_status`;
`typeError` models `None[0]` and `float(None)`;
`valueError` models `float` applied to an unparseable string;
`indexError` models subscripting an empty list. -/
inductive PyError where
  | httpError
  | typeError
  | valueError
  | indexError
deriving DecidableEq, Repr

/-- One document of the DBpedia lookup response (`response.json().get("docs", [])`).
The code only reads the optional `"resource"` field, a list of URI strings:
`r[0].get("resource")[0]`. -/
structure Doc where
  resource : Option (List String)
deriving DecidableEq, Repr

/-- One SPARQL result binding.  The source reads
`bindings.get("lat", {}).get("value", None)` (and likewise for `"long"`);
that composed access yields a string or `None`, which we model directly as
`Option String` per field. -/
structure Binding where
  lat : Option String
  long : Option String
deriving DecidableEq, Repr

/-- The SPARQL response body after
`json_response.get("results", {}).get("bindings", [])`. -/
structure SparqlResponse where
  bindings : List Binding
deriving DecidableEq, Repr

/-- Python string interpolation of the geocode argument into the SPARQL
query template: `sparql_template % uri` renders `None` as the text
`"None"`. -/
def pyStrOpt (u : Option String) : String := u.getD "None"

/-- The external services.  `lookupResp t` is the parsed `docs` list of the
lookup API for query `t` (or a transport failure); `sparqlResp q` is the
parsed SPARQL response for the query built from the interpolated reference
`q` (or a transport failure).  A `.error` models a network/HTTP failure,
i.e. what `raise_for_status` turns into an exception. -/
structure Env where
  lookupResp : String → Except PyError (List Doc)
  sparqlResp : String → Except PyError SparqlResponse

/-- Digit-string fold: `parseDigits cs` is `some` of the decimal value when
`cs` is a non-empty run of ASCII digits, else `none`. -/
def parseDigits (cs : List Char) : Option Nat :=
  if cs ≠ [] ∧ cs.all (·.isDigit) then
    some (cs.foldl (fun n c => 10 * n + (c.toNat - 48)) 0)
  else none

/-- Digit fold that tolerates the empty string (used for the two sides of a
decimal point, where Python `float` accepts `"1."` and `".5"`). -/
def digitsVal (cs : List Char) : Nat :=
  cs.foldl (fun n c => 10 * n + (c.toNat - 48)) 0

/-- Model of Python `float(s)` on plain decimal literals: optional sign,
digits with at most one decimal point, at least one digit overall.
Exponents, `inf`/`nan` and surrounding whitespace do not occur in the
inputs considered here.  `none` models `float` raising `ValueError`. -/
def pyFloat (s : String) : Option ℚ :=
  let cs := s.toList
  let signBody : Bool × List Char :=
    match cs with
    | '-' :: r => (true, r)
    | '+' :: r => (false, r)
    | _ => (false, cs)
  let body := signBody.2
  let q? : Option ℚ :=
    match body.splitOn '.' with
    | [ip] => (parseDigits ip).map (fun n => mkRat n 1)
    | [ip, fp] =>
        if (ip ≠ [] ∨ fp ≠ []) ∧ ip.all (·.isDigit) ∧ fp.all (·.isDigit) then
          some (mkRat (digitsVal ip * 10 ^ fp.length + digitsVal fp) (10 ^ fp.length))
        else none
    | _ => none
  q?.map (fun q => if signBody.1 then Rat.neg q else q)

/-- Python `float(x) or None` applied to an optional string `x`:
`float(None)` raises `TypeError`; an unparseable string raises
`ValueError`; a value parsing to `0.0` is coerced to `None` by the `or`;
any other value is kept. -/
def floatOrNone (x : Option String) : Except PyError (Option ℚ) :=
  match x with
  | none => .error .typeError
  | some s =>
    match pyFloat s with
    | none => .error .valueError
    | some q => .ok (if q = 0 then none else some q)

-- Equality of embedded computation results is decidable, so concrete
-- runs can be checked by evaluation.
deriving instance DecidableEq for Except

/-- The coordinate extraction of `geocode` applied to a parsed SPARQL
response (source lines 172–191): empty `bindings` yields `(None, None)`;
otherwise the first binding's `lat` then `long` value strings go through
`float(·) or None`, propagating any exception. -/
def geocodeOfResp (resp : SparqlResponse) : Except PyError (Option ℚ × Option ℚ) :=
  match resp.bindings with
  | [] => .ok (none, none)
  | b :: _ =>
    match floatOrNone b.lat with
    | .error e => .error e
    | .ok lat =>
      match floatOrNone b.long with
      | .error e => .error e
      | .ok long => .ok (lat, long)

/-- `geocode(uri)` (source lines 152–191): POST the SPARQL query built from
`uri` (with Python rendering `None` as `"None"`), `raise_for_status`, then
extract the first binding's coordinates.  The argument is `Option String`
because `count_table` calls `geocode(dbpedia_top1(k))`, which can pass
`None`. -/
def geocode (env : Env) (uri : Option String) : Except PyError (Option ℚ × Option ℚ) :=
  match env.sparqlResp (pyStrOpt uri) with
  | .error e => .error e
  | .ok resp => geocodeOfResp resp

/-- `dbpedia_lookup(toponyme)` (source lines 144–148): GET the lookup API,
`raise_for_status`, return `response.json().get("docs", [])`. -/
def dbpedia_lookup (env : Env) (t : String) : Except PyError (List Doc) :=
  env.lookupResp t

/-- `dbpedia_top1(toponyme)` (source lines 135–140): on an empty docs list
(`if not r`) return `None`; otherwise `r[0].get("resource")[0]`, which
raises `TypeError` when the first doc has no `"resource"` field and
`IndexError` when the list under it is empty. -/
def dbpedia_top1 (env : Env) (t : String) : Except PyError (Option String) :=
  match dbpedia_lookup env t with
  | .error e => .error e
  | .ok [] => .ok none
  | .ok (d :: _) =>
    match d.resource with
    | none => .error .typeError
    | some [] => .error .indexError
    | some (u :: _) => .ok (some u)

/-- Python truthiness test `not uri` on an optional string: `None` and the
empty string are falsy. -/
def uriFalsy (u : Option String) : Bool :=
  match u with
  | none => true
  | some s => s.isEmpty

/-- `resolution(toponyme)` (source lines 194–205): take the top-1
reference; `if not uri` return `(None, None)`, else return
`geocode(uri)`. -/
def resolution (env : Env) (t : String) : Except PyError (Option ℚ × Option ℚ) :=
  match dbpedia_top1 env t with
  | .error e => .error e
  | .ok uri => if uriFalsy uri then .ok (none, none) else geocode env uri

/-- Elementwise evaluation of a Python loop or list comprehension whose
body can raise: elements are computed left to right and the first raised
exception aborts the whole construction. -/
def mapExcept {α β : Type} (f : α → Except PyError β) : List α → Except PyError (List β)
  | [] => .ok []
  | x :: xs =>
    match f x with
    | .error e => .error e
    | .ok y =>
      match mapExcept f xs with
      | .error e => .error e
      | .ok ys => .ok (y :: ys)

/-- One row of the aggregate table built by `count_table`: the dict value
`[count, dbpedia_top1(k), geocode(dbpedia_top1(k))]` indexed by the
toponym.  The `coordinates` cell always holds the tuple returned by
`geocode` (possibly `(None, None)`), never a bare `None`. -/
structure Row where
  toponym : String
  occs : Nat
  db_pedia : Option String
  coordinates : Option ℚ × Option ℚ
deriving DecidableEq, Repr

/-- `dict(Counter(loc))`: occurrence counts per distinct toponym, in
first-occurrence order (Python dicts preserve insertion order). -/
def countOccs (loc : List String) : List (String × Nat) :=
  loc.foldl
    (fun acc t =>
      if acc.any (fun p => p.1 = t) then
        acc.map (fun p => if p.1 = t then (p.1, p.2 + 1) else p)
      else acc ++ [(t, 1)])
    []

/-- `df.dropna(how='any', axis=0)` on the three columns: `occs` is an
integer and never missing; the `coordinates` cell is a tuple object, which
pandas never treats as missing (even `(None, None)`); so a row is dropped
exactly when its `db_pedia` cell is `None`. -/
def dropnaKeep (r : Row) : Bool := r.db_pedia.isSome

/-- Insertion step of the stable descending sort on the `occs` column:
a row is placed after every earlier row with an occurrence count at least
its own. -/
def insertByOccs (r : Row) : List Row → List Row
  | [] => [r]
  | x :: xs => if x.occs < r.occs then r :: x :: xs else x :: insertByOccs r xs

/-- `df.sort_values(by=['occs'], ascending=False)`: a deterministic sort of
the rows by occurrence count, descending. -/
def sortByOccs : List Row → List Row
  | [] => []
  | x :: xs => insertByOccs x (sortByOccs xs)

/-- The per-toponym body of the `count_table` loop (source line 212):
`[loc_dict[k], dbpedia_top1(k), geocode(dbpedia_top1(k))]`.  Note that
`geocode` is invoked with the top-1 result even when that result is
`None`. -/
def rowOf (env : Env) (k : String) (c : Nat) : Except PyError Row :=
  match dbpedia_top1 env k with
  | .error e => .error e
  | .ok uri =>
    match geocode env uri with
    | .error e => .error e
    | .ok coord => .ok { toponym := k, occs := c, db_pedia := uri, coordinates := coord }

/-- `count_table(loc)` (source lines 208–218): count occurrences, build a
row per distinct toponym, drop rows with a missing cell, sort by count
descending.  An exception raised by any per-toponym lookup or geocode call
propagates out of the whole computation (there is no `try`/`except`). -/
def count_table (env : Env) (loc : List String) : Except PyError (List Row) :=
  match mapExcept (fun p => rowOf env p.1 p.2) (countOccs loc) with
  | .error e => .error e
  | .ok rows => .ok (sortByOccs (rows.filter dropnaKeep))

/-- An entity span produced by the spaCy model: surface text and label.
The NLP model is an external collaborator, so `fetch_and_map` is embedded
as a function of the span list `doc.ents`. -/
structure Ent where
  text : String
  label : String
deriving DecidableEq, Repr

/-- `[ent.text for ent in doc.ents if ent.label_ == "LOC"]` (source
line 248). -/
def locOf (ents : List Ent) : List String :=
  (ents.filter (fun e => e.label = "LOC")).map (fun e => e.text)

/-- Python truthiness of an optional float (`if lat and long`): `None` and
`0.0` are falsy. -/
def coordTruthy (x : Option ℚ) : Bool :=
  match x with
  | none => false
  | some q => decide (q ≠ 0)

/-- The filter of source line 250:
`[(lat, long) for lat, long in coordonnees if lat and long]`. -/
def coordonneesValides (cs : List (Option ℚ × Option ℚ)) : List (Option ℚ × Option ℚ) :=
  cs.filter (fun p => coordTruthy p.1 && coordTruthy p.2)

/-- The resolution/aggregation core of the `fetch_and_map` callback
(source lines 248–262): from the location spans, resolve every occurrence,
keep the truthy coordinate pairs for the heat map, and build the aggregate
table over the same occurrence list.  Exceptions from any `resolution` or
`count_table` call propagate (no `try`/`except`); the list comprehension
over `loc` runs before `count_table`. -/
def fetch_and_map (env : Env) (ents : List Ent) :
    Except PyError (List (Option ℚ × Option ℚ) × List Row) :=
  let loc := locOf ents
  match mapExcept (resolution env) loc with
  | .error e => .error e
  | .ok coordonnees =>
    match count_table env loc with
    | .error e => .error e
    | .ok df => .ok (coordonneesValides coordonnees, df)

/-!
Stateful model of the `@cache` decorators.  The three decorated functions
(`dbpedia_lookup`, `dbpedia_top1`, `geocode`) are re-expressed with an
explicit memo state and a log of outbound network requests, so that
request counts are observable.  `functools.cache` memoizes only calls that
return normally: a call that raises stores nothing and is re-executed on
the next access.
-/

/-- One outbound network request, keyed by the argument of the cached
function that issued it (the lookup GET for a toponym, or the SPARQL POST
built from a geocode argument). -/
inductive Req where
  | lookupReq (t : String)
  | sparqlReq (u : Option String)
deriving DecidableEq, Repr

/-- Association-list fetch modelling a memo-table access. -/
def alGet {α β : Type} [DecidableEq α] (l : List (α × β)) (k : α) : Option β :=
  (l.find? (fun p => decide (p.1 = k))).map (fun p => p.2)

/-- The memo tables of the three `@cache`-decorated functions plus the log
of outbound requests issued so far. -/
structure CState where
  lookupCache : List (String × List Doc)
  top1Cache : List (String × Option String)
  geoCache : List (Option String × (Option ℚ × Option ℚ))
  reqLog : List Req
deriving Repr

/-- The empty state at the start of a run. -/
def initState : CState := ⟨[], [], [], []⟩

/-- Stateful `dbpedia_lookup`: on a memo hit return the stored docs without
any request; on a miss issue the GET request (logged even when it fails),
and memoize the parsed docs only when the call returns normally. -/
def dbpedia_lookupS (env : Env) (t : String) (st : CState) :
    Except PyError (List Doc) × CState :=
  match alGet st.lookupCache t with
  | some v => (.ok v, st)
  | none =>
    let st1 := { st with reqLog := st.reqLog ++ [.lookupReq t] }
    match env.lookupResp t with
    | .error e => (.error e, st1)
    | .ok v => (.ok v, { st1 with lookupCache := st1.lookupCache ++ [(t, v)] })

/-- Stateful `dbpedia_top1`: its own memo table sits in front of the cached
`dbpedia_lookup`; a raised exception (propagated transport failure, or a
malformed first doc) is not memoized. -/
def dbpedia_top1S (env : Env) (t : String) (st : CState) :
    Except PyError (Option String) × CState :=
  match alGet st.top1Cache t with
  | some v => (.ok v, st)
  | none =>
    match dbpedia_lookupS env t st with
    | (.error e, st1) => (.error e, st1)
    | (.ok r, st1) =>
      match r with
      | [] => (.ok none, { st1 with top1Cache := st1.top1Cache ++ [(t, none)] })
      | d :: _ =>
        match d.resource with
        | none => (.error .typeError, st1)
        | some [] => (.error .indexError, st1)
        | some (u :: _) =>
          (.ok (some u), { st1 with top1Cache := st1.top1Cache ++ [(t, some u)] })

/-- Stateful `geocode`: on a memo hit return the stored pair without any
request; on a miss issue the SPARQL POST (logged even when it fails) and
memoize the extracted pair only when the call returns normally (a
transport failure or a `float` exception stores nothing). -/
def geocodeS (env : Env) (u : Option String) (st : CState) :
    Except PyError (Option ℚ × Option ℚ) × CState :=
  match alGet st.geoCache u with
  | some v => (.ok v, st)
  | none =>
    let st1 := { st with reqLog := st.reqLog ++ [.sparqlReq u] }
    match env.sparqlResp (pyStrOpt u) with
    | .error e => (.error e, st1)
    | .ok resp =>
      match geocodeOfResp resp with
      | .error e => (.error e, st1)
      | .ok v => (.ok v, { st1 with geoCache := st1.geoCache ++ [(u, v)] })

/-- One invocation of a cached service function within a run. -/
inductive Call where
  | lookupCall (t : String)
  | top1Call (t : String)
  | geocodeCall (u : Option String)
deriving DecidableEq, Repr

/-- The state after one invocation. -/
def runCall (env : Env) (st : CState) (c : Call) : CState :=
  match c with
  | .lookupCall t => (dbpedia_lookupS env t st).2
  | .top1Call t => (dbpedia_top1S env t st).2
  | .geocodeCall u => (geocodeS env u st).2

/-- The state after a sequence of invocations. -/
def runCalls (env : Env) (cs : List Call) (st : CState) : CState :=
  cs.foldl (runCall env) st

/-!
Concrete service environments used to evaluate the embedded code on the
scenarios of the specification.
-/

/-- Environment where `"Paris"` and `"Lyon"` both resolve fully. -/
def envParisLyon : Env where
  lookupResp t :=
    if t = "Paris" then .ok [⟨some ["dbr:Paris"]⟩]
    else if t = "Lyon" then .ok [⟨some ["dbr:Lyon"]⟩]
    else .ok []
  sparqlResp q :=
    if q = "dbr:Paris" then .ok ⟨[⟨some "48.85", some "2.35"⟩]⟩
    else if q = "dbr:Lyon" then .ok ⟨[⟨some "45.76", some "4.84"⟩]⟩
    else .ok ⟨[]⟩

/-- Environment where `"P"` resolves to an entity whose geocoding response
carries the legitimate coordinate strings `"0.0"`/`"0.0"`. -/
def envZero : Env where
  lookupResp t := if t = "P" then .ok [⟨some ["u0"]⟩] else .ok []
  sparqlResp q := if q = "u0" then .ok ⟨[⟨some "0.0", some "0.0"⟩]⟩ else .ok ⟨[]⟩

/-- Mixed batch: `"A"` resolves to an entity whose geocoding request fails
with a transport error, `"B"` resolves fully. -/
def envMixed : Env where
  lookupResp t :=
    if t = "A" then .ok [⟨some ["uA"]⟩]
    else if t = "B" then .ok [⟨some ["uB"]⟩]
    else .ok []
  sparqlResp q :=
    if q = "uA" then .error .httpError
    else if q = "uB" then .ok ⟨[⟨some "45.76", some "4.84"⟩]⟩
    else .ok ⟨[]⟩

/-- Environment where every lookup is empty and every SPARQL query returns
no bindings. -/
def envEmptyServices : Env where
  lookupResp _ := .ok []
  sparqlResp _ := .ok ⟨[]⟩

/-- Environment where every lookup is empty but the SPARQL query built for
the interpolated `None` reference fails with a transport error, making
any `geocode(None)` attempt observable. -/
def envAtl : Env where
  lookupResp _ := .ok []
  sparqlResp q := if q = "None" then .error .httpError else .ok ⟨[]⟩

/-- Environment where `"A"` has a top-1 entity whose geocoding response has
no bindings, so its row carries the coordinate pair `(None, None)`. -/
def envNoCoord : Env where
  lookupResp t := if t = "A" then .ok [⟨some ["uA"]⟩] else .ok []
  sparqlResp _ := .ok ⟨[]⟩

/-- Environment whose geocoding response for `"u5"` has a first binding
with a latitude value but no longitude field. -/
def envMissLong : Env where
  lookupResp _ := .ok []
  sparqlResp q := if q = "u5" then .ok ⟨[⟨some "1.5", none⟩]⟩ else .ok ⟨[]⟩

/-- Environment where the lookup for `"T"` returns a document whose
`"resource"` list holds the empty string, an entity reference that is
present but Python-falsy; geocoding that empty reference would succeed. -/
def envEmptyUri : Env where
  lookupResp t := if t = "T" then .ok [⟨some [""]⟩] else .ok []
  sparqlResp q := if q = "" then .ok ⟨[⟨some "1.0", some "2.0"⟩]⟩ else .ok ⟨[]⟩

/-- Environment whose geocoding response for `"u9"` carries a latitude
string that does not parse as a float. -/
def envBadFloat : Env where
  lookupResp _ := .ok []
  sparqlResp q := if q = "u9" then .ok ⟨[⟨some "abc", some "1.0"⟩]⟩ else .ok ⟨[]⟩

/-- Environment where the lookup for `"T"` returns a non-empty docs list
whose first document has no `"resource"` field. -/
def envNoResource : Env where
  lookupResp t := if t = "T" then .ok [⟨none⟩] else .ok []
  sparqlResp _ := .ok ⟨[]⟩

/-- Environment where every SPARQL request fails with a transport error. -/
def envFail : Env where
  lookupResp _ := .ok []
  sparqlResp _ := .error .httpError

/-- Run-wide cache/request-log invariant tying the memo tables and the
request log to the deterministic service environment: a key whose
underlying computation succeeds has been requested at most once, and once
it has been requested it is memoized; every memoized value is the value
the underlying computation returns. -/
structure Inv (env : Env) (st : CState) : Prop where
  lookupCount : ∀ t, (env.lookupResp t).isOk = true →
    st.reqLog.count (Req.lookupReq t) ≤ 1
  lookupCached : ∀ t, (env.lookupResp t).isOk = true →
    st.reqLog.count (Req.lookupReq t) = 1 → (alGet st.lookupCache t).isSome = true
  geoCount : ∀ u, (geocode env u).isOk = true →
    st.reqLog.count (Req.sparqlReq u) ≤ 1
  geoCached : ∀ u, (geocode env u).isOk = true →
    st.reqLog.count (Req.sparqlReq u) = 1 → (alGet st.geoCache u).isSome = true
  lookupSound : ∀ t v, alGet st.lookupCache t = some v → env.lookupResp t = .ok v
  top1Sound : ∀ t v, alGet st.top1Cache t = some v → dbpedia_top1 env t = .ok v
  geoSound : ∀ u v, alGet st.geoCache u = some v → geocode env u = .ok v

/-!
Helper lemmas about the table sort and association-list caches.
-/

theorem mem_insertByOccs {y r : Row} {l : List Row} (h : y ∈ insertByOccs r l) :
    y = r ∨ y ∈ l := by
  induction l with
  | nil =>
    simp only [insertByOccs, List.mem_singleton] at h
    exact Or.inl h
  | cons x xs ih =>
    simp only [insertByOccs] at h
    split at h
    · rcases List.mem_cons.mp h with h | h
      · exact Or.inl h
      · exact Or.inr h
    · rcases List.mem_cons.mp h with h | h
      · exact Or.inr (List.mem_cons.mpr (Or.inl h))
      · rcases ih h with h | h
        · exact Or.inl h
        · exact Or.inr (List.mem_cons.mpr (Or.inr h))

theorem pairwise_insertByOccs {r : Row} {l : List Row}
    (h : l.Pairwise (fun a b => b.occs ≤ a.occs)) :
    (insertByOccs r l).Pairwise (fun a b => b.occs ≤ a.occs) := by
  induction l with
  | nil => simp [insertByOccs]
  | cons x xs ih =>
    rcases List.pairwise_cons.mp h with ⟨hx, hxs⟩
    simp only [insertByOccs]
    split
    · rename_i hlt
      refine List.pairwise_cons.mpr ⟨?_, h⟩
      intro y hy
      rcases List.mem_cons.mp hy with rfl | hy
      · exact Nat.le_of_lt hlt
      · exact Nat.le_trans (hx y hy) (Nat.le_of_lt hlt)
    · rename_i hge
      refine List.pairwise_cons.mpr ⟨?_, ih hxs⟩
      intro y hy
      rcases mem_insertByOccs hy with rfl | hy
      · omega
      · exact hx y hy

theorem sortByOccs_pairwise (l : List Row) :
    (sortByOccs l).Pairwise (fun a b => b.occs ≤ a.occs) := by
  induction l with
  | nil => simp [sortByOccs]
  | cons x xs ih => exact pairwise_insertByOccs ih

theorem mem_sortByOccs {y : Row} {l : List Row} (h : y ∈ sortByOccs l) : y ∈ l := by
  induction l with
  | nil =>
    simp only [sortByOccs] at h
    exact h
  | cons x xs ih =>
    rcases mem_insertByOccs (by simpa [sortByOccs] using h) with rfl | h
    · exact List.mem_cons.mpr (Or.inl rfl)
    · exact List.mem_cons.mpr (Or.inr (ih h))

theorem alGet_append {α β : Type} [DecidableEq α] (l : List (α × β)) (p : α × β) (k : α) :
    alGet (l ++ [p]) k =
      match alGet l k with
      | some v => some v
      | none => if p.1 = k then some p.2 else none := by
  induction l with
  | nil =>
    by_cases hp : p.1 = k
    · simp [alGet, List.find?, hp]
    · simp [alGet, List.find?, hp]
  | cons x xs ih =>
    by_cases hx : x.1 = k
    · simp [alGet, List.find?, hx]
    · have h1 : alGet ((x :: xs) ++ [p]) k = alGet (xs ++ [p]) k := by
        simp [alGet, List.find?, hx]
      have h2 : alGet (x :: xs) k = alGet xs k := by
        simp [alGet, List.find?, hx]
      rw [h1, h2, ih]

/-- C1: in `src/dashboard.py`, a geocoding response whose first binding
carries latitude/longitude strings parsing to exactly `0.0` does NOT yield
a present `(0.0, 0.0)` coordinate: `float(x) or None` (lines 188–189)
coerces both components to `None`, so `geocode` returns the absent pair;
moreover the valid-coordinate list of `fetch_and_map` stays empty, and the
truthiness filter of line 250 would drop a genuine `(0.0, 0.0)` pair
anyway.  This contradicts the claim (the spec itself flags the
`float(x) or None` pattern as the source's bug). -/
theorem geocode_zero_coerced :
    geocode envZero (some "u0") = .ok (none, none) ∧
    Except.map Prod.fst (fetch_and_map envZero [⟨"P", "LOC"⟩]) = .ok [] ∧
    coordonneesValides [(some 0, some 0)] = [] :=
  ⟨by decide, by decide, by decide⟩

/-- C2 counterexample: in the mixed batch `["A", "B"]` where geocoding
`"A"`'s entity fails with a transport error while `"B"` resolves fully,
both `count_table` and `fetch_and_map` propagate the exception: the batch
aborts and the successful toponym `"B"` does not appear in any output,
contrary to the claim. -/
theorem count_table_transport_aborts_cex :
    count_table envMixed ["A", "B"] = .error .httpError ∧
    fetch_and_map envMixed [⟨"A", "LOC"⟩, ⟨"B", "LOC"⟩] = .error .httpError :=
  ⟨rfl, rfl⟩

/-- C2 amended: `count_table` has no `try`/`except`; when the per-toponym
lookup/geocode computation of the first toponym of a two-toponym batch
raises, the whole aggregation returns that exception and no output row is
produced for the other toponym. -/
theorem count_table_error_propagates (env : Env) (a b : String) (e : PyError)
    (hab : a ≠ b) (ha : rowOf env a 1 = .error e) :
    count_table env [a, b] = .error e := by
  have hco : countOccs [a, b] = [(a, 1), (b, 1)] := by
    simp [countOccs, hab]
  simp [count_table, hco, mapExcept, ha]

/-- C2 witness: the amended propagation law applied to the concrete mixed
batch `["A", "B"]` in `envMixed`. -/
theorem count_table_error_propagates_witness :
    count_table envMixed ["A", "B"] = .error .httpError :=
  count_table_error_propagates envMixed "A" "B" .httpError
    (by decide) rfl

/-- C3 counterexample: in `envNoCoord`, toponym `"A"` has a present entity
reference but its geocoding response has no bindings, so its row carries
the absent coordinate pair `(None, None)`; `df.dropna` does not drop it,
because the `coordinates` cell is a tuple object, which pandas never
treats as missing.  The row therefore survives into the returned table,
contrary to the claim. -/
theorem count_table_keeps_absent_pair_cex :
    count_table envNoCoord ["A"] =
      .ok [⟨"A", 1, some "uA", (none, none)⟩] :=
  rfl

/-- C3 amended: every row of a successfully returned aggregate table has a
present entity reference (`dropna` does drop a `None` cell in the
`db_pedia` column); rows whose coordinate is the absent pair `(None,
None)` are NOT dropped, as the counterexample shows. -/
theorem count_table_rows_have_entity (env : Env) (loc : List String) (df : List Row)
    (h : count_table env loc = .ok df) :
    ∀ r ∈ df, r.db_pedia.isSome = true := by
  intro r hr
  cases hm : mapExcept (fun p => rowOf env p.1 p.2) (countOccs loc) with
  | error e => simp [count_table, hm] at h
  | ok rows =>
    have hdf : sortByOccs (rows.filter dropnaKeep) = df := by
      simpa [count_table, hm] using h
    rw [← hdf] at hr
    have hmem := List.mem_filter.mp (mem_sortByOccs hr)
    simpa [dropnaKeep] using hmem.2

/-- C3 witness: the amended row guarantee applied to the concrete batch of
`envNoCoord`, whose single surviving row has a present reference. -/
theorem count_table_rows_have_entity_witness :
    ((⟨"A", 1, some "uA", (none, none)⟩ : Row)).db_pedia.isSome = true :=
  count_table_rows_have_entity envNoCoord ["A"]
    [⟨"A", 1, some "uA", (none, none)⟩] rfl
    ⟨"A", 1, some "uA", (none, none)⟩ (List.mem_singleton.mpr rfl)

/-- C4 counterexample: for `["Atlantide"]` with an empty entity-search
result, the aggregator still attempts a geocode call with the absent
reference — `count_table` computes `geocode(dbpedia_top1(k))`, i.e.
`geocode(None)`; with the SPARQL request for the interpolated `"None"`
reference failing, that attempt is observable: `count_table` raises
instead of returning the empty table the claim promises. -/
theorem count_table_geocodes_absent_cex :
    dbpedia_lookup envAtl "Atlantide" = .ok [] ∧
    resolution envAtl "Atlantide" = .ok (none, none) ∧
    count_table envAtl ["Atlantide"] = .error .httpError :=
  ⟨rfl, rfl, rfl⟩

/-- C4 amended: for a toponym with no entity-search match, `resolution`
returns the absent pair, and — provided the `geocode(None)` call that
`count_table` still makes returns normally (no bindings for the
interpolated `"None"` reference) — the toponym appears in neither the
aggregate table nor the valid coordinate list. -/
theorem unmatched_toponym_excluded (env : Env) (t : String)
    (hl : dbpedia_lookup env t = .ok [])
    (hs : env.sparqlResp "None" = .ok ⟨[]⟩) :
    resolution env t = .ok (none, none) ∧
    count_table env [t] = .ok [] ∧
    fetch_and_map env [⟨t, "LOC"⟩] = .ok ([], []) := by
  have ht : dbpedia_top1 env t = .ok none := by
    simp [dbpedia_top1, hl]
  have hres : resolution env t = .ok (none, none) := by
    simp [resolution, ht, uriFalsy]
  have hrow : rowOf env t 1 = .ok ⟨t, 1, none, (none, none)⟩ := by
    simp [rowOf, ht, geocode, pyStrOpt, hs, geocodeOfResp]
  have hct : count_table env [t] = .ok [] := by
    have hco : countOccs [t] = [(t, 1)] := by simp [countOccs]
    simp [count_table, hco, mapExcept, hrow, dropnaKeep, sortByOccs]
  refine ⟨hres, hct, ?_⟩
  simp [fetch_and_map, locOf, mapExcept, hres, hct, coordonneesValides, coordTruthy]

/-- C4 witness: the amended exclusion law applied to `["Atlantide"]` in
the environment where both services return empty results. -/
theorem unmatched_toponym_excluded_witness :
    resolution envEmptyServices "Atlantide" = .ok (none, none) ∧
    count_table envEmptyServices ["Atlantide"] = .ok [] ∧
    fetch_and_map envEmptyServices [⟨"Atlantide", "LOC"⟩] = .ok ([], []) :=
  unmatched_toponym_excluded envEmptyServices "Atlantide" rfl rfl

/-- C5 counterexample: a response whose first binding has a latitude value
but no longitude field makes `geocode` raise — `float(None)` is a
`TypeError` — rather than return the absent pair as the claim states. -/
theorem geocode_missing_field_raises_cex :
    geocode envMissLong (some "u5") = .error .typeError ∧
    geocode envMissLong (some "u5") ≠ .ok (none, none) :=
  ⟨by decide, by decide⟩

/-- C5 amended: for a transport-successful geocoding response, `geocode`
returns the absent pair when there are no bindings; on a first binding it
raises `TypeError` for a missing latitude/longitude field and `ValueError`
for an unparseable one, and when both fields parse it returns the parsed
values except that a value of exactly `0.0` is coerced to absent by
`float(x) or None`. -/
theorem geocode_cases (env : Env) (u : Option String) (resp : SparqlResponse)
    (h : env.sparqlResp (pyStrOpt u) = .ok resp) :
    (resp.bindings = [] → geocode env u = .ok (none, none)) ∧
    (∀ b l, resp.bindings = b :: l →
      (b.lat = none → geocode env u = .error .typeError) ∧
      (∀ s, b.lat = some s → pyFloat s = none → geocode env u = .error .valueError) ∧
      (∀ s q, b.lat = some s → pyFloat s = some q →
        (b.long = none → geocode env u = .error .typeError) ∧
        (∀ s2, b.long = some s2 → pyFloat s2 = none → geocode env u = .error .valueError) ∧
        (∀ s2 q2, b.long = some s2 → pyFloat s2 = some q2 →
          geocode env u =
            .ok (if q = 0 then none else some q, if q2 = 0 then none else some q2)))) := by
  have hg : geocode env u = geocodeOfResp resp := by simp [geocode, h]
  refine ⟨fun hb => by simp [hg, geocodeOfResp, hb], ?_⟩
  intro b l hb
  refine ⟨fun hlat => by simp [hg, geocodeOfResp, hb, floatOrNone, hlat], ?_, ?_⟩
  · intro s hlat hp
    simp [hg, geocodeOfResp, hb, floatOrNone, hlat, hp]
  · intro s q hlat hp
    refine ⟨fun hlong => by simp [hg, geocodeOfResp, hb, floatOrNone, hlat, hp, hlong], ?_, ?_⟩
    · intro s2 hlong hp2
      simp [hg, geocodeOfResp, hb, floatOrNone, hlat, hp, hlong, hp2]
    · intro s2 q2 hlong hp2
      simp [hg, geocodeOfResp, hb, floatOrNone, hlat, hp, hlong, hp2]

/-- C5 witness: the case analysis applied to the concrete response whose
first binding carries `"0.0"`/`"0.0"`. -/
theorem geocode_cases_witness :
    geocode envZero (some "u0") = .ok (none, none) := by
  have h :=
    (((geocode_cases envZero (some "u0") ⟨[⟨some "0.0", some "0.0"⟩]⟩ (by decide)).2
        ⟨some "0.0", some "0.0"⟩ [] rfl).2.2 "0.0" 0 rfl (by decide)).2.2 "0.0" 0 rfl (by decide)
  simpa using h

/-- C6 counterexample: when the top-1 entity reference is the empty string
— present, not absent — `resolution` still short-circuits to the absent
pair because `if not uri` tests Python truthiness, and does not return the
result of geocoding that reference (which here would be `(1.0, 2.0)`). -/
theorem resolution_empty_uri_cex :
    dbpedia_top1 envEmptyUri "T" = .ok (some "") ∧
    resolution envEmptyUri "T" = .ok (none, none) ∧
    geocode envEmptyUri (some "") = .ok (some 1, some 2) :=
  ⟨by decide, by decide, by decide⟩

/-- C6 amended: `resolution` performs top-1 lookup first; when the top-1
reference is absent or the empty string (Python truthiness), it returns
the absent pair without consulting the geocoding service (its result does
not depend on the SPARQL side of the environment); for any other
reference it returns exactly the result of geocoding that reference, with
no fallback to lower-ranked candidates. -/
theorem resolution_truthiness (lk : String → Except PyError (List Doc))
    (sq sq2 : String → Except PyError SparqlResponse) (t : String) (u : Option String)
    (h : dbpedia_top1 ⟨lk, sq⟩ t = .ok u) :
    (uriFalsy u = true →
      resolution ⟨lk, sq⟩ t = .ok (none, none) ∧
      resolution ⟨lk, sq2⟩ t = .ok (none, none)) ∧
    (uriFalsy u = false → resolution ⟨lk, sq⟩ t = geocode ⟨lk, sq⟩ u) := by
  have h2 : dbpedia_top1 ⟨lk, sq2⟩ t = .ok u := h
  constructor
  · intro hf
    exact ⟨by simp [resolution, h, hf], by simp [resolution, h2, hf]⟩
  · intro hf
    simp [resolution, h, hf]

/-- C6 witness: the truthiness law applied to a toponym with no
entity-search match. -/
theorem resolution_truthiness_witness :
    resolution envEmptyServices "X" = .ok (none, none) := by
  have h := resolution_truthiness envEmptyServices.lookupResp envEmptyServices.sparqlResp
    envEmptyServices.sparqlResp "X" none (by decide)
  exact (h.1 rfl).1

/-- C7: every successfully returned aggregate table is ordered by
occurrence count descending (the embedded sort is deterministic), and the
concrete batch `["Paris", "Paris", "Lyon", "Paris", "Lyon"]` with both
toponyms resolvable yields the row order `Paris(3), Lyon(2)`. -/
theorem count_table_sorted_desc :
    (∀ env loc df, count_table env loc = .ok df →
      df.Pairwise (fun a b => b.occs ≤ a.occs)) ∧
    Except.map (List.map fun r => (r.toponym, r.occs))
        (count_table envParisLyon ["Paris", "Paris", "Lyon", "Paris", "Lyon"]) =
      .ok [("Paris", 3), ("Lyon", 2)] := by
  constructor
  · intro env loc df h
    cases hm : mapExcept (fun p => rowOf env p.1 p.2) (countOccs loc) with
    | error e => simp [count_table, hm] at h
    | ok rows =>
      have hdf : sortByOccs (rows.filter dropnaKeep) = df := by
        simpa [count_table, hm] using h
      rw [← hdf]
      exact sortByOccs_pairwise _
  · decide

/-- C7 witness: the sortedness guarantee applied to the concrete
Paris/Lyon table. -/
theorem count_table_sorted_desc_witness :
    ([⟨"Paris", 3, some "dbr:Paris", (some (mkRat 4885 100), some (mkRat 235 100))⟩,
      ⟨"Lyon", 2, some "dbr:Lyon", (some (mkRat 4576 100), some (mkRat 484 100))⟩] :
        List Row).Pairwise (fun a b => b.occs ≤ a.occs) :=
  count_table_sorted_desc.1 envParisLyon ["Paris", "Paris", "Lyon", "Paris", "Lyon"]
    _ (by decide)

/-- C9 counterexample: a first binding whose latitude string is not
parseable as a float makes `geocode` raise `ValueError` instead of
treating the coordinate as absent. -/
theorem geocode_unparseable_raises_cex :
    geocode envBadFloat (some "u9") = .error .valueError ∧
    (geocode envBadFloat (some "u9")).isOk = false :=
  ⟨by decide, by decide⟩

/-- C9 amended: a transport-successful response whose first binding holds
an unparseable latitude (or a parseable latitude and an unparseable
longitude) makes `geocode` raise `ValueError`, which propagates to the
caller. -/
theorem geocode_malformed_raises (env : Env) (u : Option String) (resp : SparqlResponse)
    (b : Binding) (l : List Binding)
    (h : env.sparqlResp (pyStrOpt u) = .ok resp) (hb : resp.bindings = b :: l) :
    (∀ s, b.lat = some s → pyFloat s = none → geocode env u = .error .valueError) ∧
    (∀ s q s2, b.lat = some s → pyFloat s = some q → b.long = some s2 →
      pyFloat s2 = none → geocode env u = .error .valueError) := by
  have hg : geocode env u = geocodeOfResp resp := by simp [geocode, h]
  constructor
  · intro s hlat hp
    simp [hg, geocodeOfResp, hb, floatOrNone, hlat, hp]
  · intro s q s2 hlat hp hlong hp2
    simp [hg, geocodeOfResp, hb, floatOrNone, hlat, hp, hlong, hp2]

/-- C9 witness: the malformed-latitude law applied to the concrete
`"abc"` response. -/
theorem geocode_malformed_raises_witness :
    geocode envBadFloat (some "u9") = .error PyError.valueError :=
  (geocode_malformed_raises envBadFloat (some "u9") ⟨[⟨some "abc", some "1.0"⟩]⟩
    ⟨some "abc", some "1.0"⟩ [] (by decide) rfl).1 "abc" rfl (by decide)

/-- C10: `dbpedia_top1` raises `TypeError` on a non-empty lookup result
whose first document has no `"resource"` field (subscripting `None`), and
it is total when the lookup result is empty or its first document carries
a non-empty resource list. -/
theorem dbpedia_top1_missing_resource_raises :
    dbpedia_top1 envNoResource "T" = .error .typeError ∧
    (∀ env t, dbpedia_lookup env t = .ok [] → dbpedia_top1 env t = .ok none) ∧
    (∀ env t d l u us, dbpedia_lookup env t = .ok (d :: l) →
      d.resource = some (u :: us) → dbpedia_top1 env t = .ok (some u)) := by
  refine ⟨by decide, ?_, ?_⟩
  · intro env t h
    simp [dbpedia_top1, h]
  · intro env t d l u us h hr
    simp [dbpedia_top1, h, hr]

/-- C10 witness: the totality direction applied to the concrete
`envParisLyon` lookup for `"Paris"`. -/
theorem dbpedia_top1_missing_resource_raises_witness :
    dbpedia_top1 envParisLyon "Paris" = .ok (some "dbr:Paris") :=
  dbpedia_top1_missing_resource_raises.2.2 envParisLyon "Paris" ⟨some ["dbr:Paris"]⟩ []
    "dbr:Paris" [] (by decide) rfl

/-!
Lemmas for the stateful cache model.
-/

theorem count_snoc (l : List Req) (x y : Req) :
    (l ++ [x]).count y = l.count y + (if y = x then 1 else 0) := by
  by_cases h : y = x
  · subst h; simp
  · simp [List.count_append, List.count_cons, h]

theorem alGet_append_some {α β : Type} [DecidableEq α] {l : List (α × β)} {k : α} {v : β}
    (p : α × β) (h : alGet l k = some v) : alGet (l ++ [p]) k = some v := by
  rw [alGet_append, h]

theorem alGet_append_self {α β : Type} [DecidableEq α] {l : List (α × β)} {k : α}
    (v : β) (h : alGet l k = none) : alGet (l ++ [(k, v)]) k = some v := by
  rw [alGet_append, h]
  simp

theorem alGet_append_elim {α β : Type} [DecidableEq α] {l : List (α × β)} {p : α × β}
    {k : α} {v : β} (h : alGet (l ++ [p]) k = some v) :
    alGet l k = some v ∨ (p.1 = k ∧ p.2 = v) := by
  rw [alGet_append] at h
  cases hA : alGet l k with
  | some w =>
    rw [hA] at h
    exact Or.inl (by simpa using h)
  | none =>
    rw [hA] at h
    by_cases hpk : p.1 = k
    · simp only [hpk, if_pos] at h
      exact Or.inr ⟨hpk, by simpa using h⟩
    · simp [hpk] at h

theorem invLog (env : Env) (st : CState) (r : Req) (h : Inv env st)
    (hr : (match r with
           | Req.lookupReq t => (env.lookupResp t).isOk
           | Req.sparqlReq u => (geocode env u).isOk) = false) :
    Inv env ⟨st.lookupCache, st.top1Cache, st.geoCache, st.reqLog ++ [r]⟩ := by
  refine ⟨?_, ?_, ?_, ?_, h.lookupSound, h.top1Sound, h.geoSound⟩
  · intro t h'
    by_cases hq : Req.lookupReq t = r
    · rw [← hq] at hr; simp [h'] at hr
    · simpa [count_snoc, hq] using h.lookupCount t h'
  · intro t h' hcnt
    by_cases hq : Req.lookupReq t = r
    · rw [← hq] at hr; simp [h'] at hr
    · rw [count_snoc] at hcnt
      simp [hq] at hcnt
      exact h.lookupCached t h' hcnt
  · intro u h'
    by_cases hq : Req.sparqlReq u = r
    · rw [← hq] at hr; simp [h'] at hr
    · simpa [count_snoc, hq] using h.geoCount u h'
  · intro u h' hcnt
    by_cases hq : Req.sparqlReq u = r
    · rw [← hq] at hr; simp [h'] at hr
    · rw [count_snoc] at hcnt
      simp [hq] at hcnt
      exact h.geoCached u h' hcnt

theorem invLookupStep (env : Env) (st : CState) (t : String) (v : List Doc)
    (h : Inv env st) (hc : alGet st.lookupCache t = none) (he : env.lookupResp t = .ok v) :
    Inv env ⟨st.lookupCache ++ [(t, v)], st.top1Cache, st.geoCache,
      st.reqLog ++ [Req.lookupReq t]⟩ := by
  have hok : (env.lookupResp t).isOk = true := by rw [he]; rfl
  have hcnt0 : st.reqLog.count (Req.lookupReq t) = 0 := by
    have h1 := h.lookupCount t hok
    by_contra hne
    have h2 : st.reqLog.count (Req.lookupReq t) = 1 := by omega
    have h3 := h.lookupCached t hok h2
    rw [hc] at h3
    simp at h3
  refine ⟨?_, ?_, ?_, ?_, ?_, h.top1Sound, h.geoSound⟩
  · intro t' h'
    by_cases ht : t' = t
    · subst ht; simp [count_snoc, hcnt0]
    · have hne : Req.lookupReq t' ≠ Req.lookupReq t := by simpa using ht
      simpa [count_snoc, hne] using h.lookupCount t' h'
  · intro t' h' hcnt
    by_cases ht : t' = t
    · subst ht
      rw [alGet_append_self v hc]
      rfl
    · have hne : Req.lookupReq t' ≠ Req.lookupReq t := by simpa using ht
      rw [count_snoc] at hcnt
      simp [hne] at hcnt
      have h3 := h.lookupCached t' h' hcnt
      cases hA : alGet st.lookupCache t' with
      | some w => rw [alGet_append_some _ hA]; rfl
      | none => rw [hA] at h3; simp at h3
  · intro u h'
    have hne : Req.sparqlReq u ≠ Req.lookupReq t := by simp
    simpa [count_snoc, hne] using h.geoCount u h'
  · intro u h' hcnt
    have hne : Req.sparqlReq u ≠ Req.lookupReq t := by simp
    rw [count_snoc] at hcnt
    simp [hne] at hcnt
    exact h.geoCached u h' hcnt
  · intro t' w hw
    rcases alGet_append_elim hw with h1 | ⟨h1, h2⟩
    · exact h.lookupSound t' w h1
    · dsimp at h1 h2
      subst h1
      rw [← h2]
      exact he

theorem invGeoStep (env : Env) (st : CState) (u : Option String) (v : Option ℚ × Option ℚ)
    (h : Inv env st) (hc : alGet st.geoCache u = none) (he : geocode env u = .ok v) :
    Inv env ⟨st.lookupCache, st.top1Cache, st.geoCache ++ [(u, v)],
      st.reqLog ++ [Req.sparqlReq u]⟩ := by
  have hok : (geocode env u).isOk = true := by rw [he]; rfl
  have hcnt0 : st.reqLog.count (Req.sparqlReq u) = 0 := by
    have h1 := h.geoCount u hok
    by_contra hne
    have h2 : st.reqLog.count (Req.sparqlReq u) = 1 := by omega
    have h3 := h.geoCached u hok h2
    rw [hc] at h3
    simp at h3
  refine ⟨?_, ?_, ?_, ?_, h.lookupSound, h.top1Sound, ?_⟩
  · intro t' h'
    have hne : Req.lookupReq t' ≠ Req.sparqlReq u := by simp
    simpa [count_snoc, hne] using h.lookupCount t' h'
  · intro t' h' hcnt
    have hne : Req.lookupReq t' ≠ Req.sparqlReq u := by simp
    rw [count_snoc] at hcnt
    simp [hne] at hcnt
    exact h.lookupCached t' h' hcnt
  · intro u' h'
    by_cases hu : u' = u
    · subst hu; simp [count_snoc, hcnt0]
    · have hne : Req.sparqlReq u' ≠ Req.sparqlReq u := by simpa using hu
      simpa [count_snoc, hne] using h.geoCount u' h'
  · intro u' h' hcnt
    by_cases hu : u' = u
    · subst hu
      rw [alGet_append_self v hc]
      rfl
    · have hne : Req.sparqlReq u' ≠ Req.sparqlReq u := by simpa using hu
      rw [count_snoc] at hcnt
      simp [hne] at hcnt
      have h3 := h.geoCached u' h' hcnt
      cases hA : alGet st.geoCache u' with
      | some w => rw [alGet_append_some _ hA]; rfl
      | none => rw [hA] at h3; simp at h3
  · intro u' w hw
    rcases alGet_append_elim hw with h1 | ⟨h1, h2⟩
    · exact h.geoSound u' w h1
    · dsimp at h1 h2
      subst h1
      rw [← h2]
      exact he

theorem invTop1Step (env : Env) (st : CState) (t : String) (v : Option String)
    (h : Inv env st) (hv : dbpedia_top1 env t = .ok v) :
    Inv env ⟨st.lookupCache, st.top1Cache ++ [(t, v)], st.geoCache, st.reqLog⟩ := by
  refine ⟨h.lookupCount, h.lookupCached, h.geoCount, h.geoCached, h.lookupSound, ?_,
    h.geoSound⟩
  intro t' w hw
  rcases alGet_append_elim hw with h1 | ⟨h1, h2⟩
  · exact h.top1Sound t' w h1
  · dsimp at h1 h2
    subst h1
    rw [← h2]
    exact hv

theorem lookupS_inv (env : Env) (t : String) (st : CState) (h : Inv env st) :
    Inv env (dbpedia_lookupS env t st).2 := by
  unfold dbpedia_lookupS
  cases hc : alGet st.lookupCache t with
  | some v => exact h
  | none =>
    cases he : env.lookupResp t with
    | error e =>
      exact invLog env st (Req.lookupReq t) h
        (show (env.lookupResp t).isOk = false by rw [he]; rfl)
    | ok v => exact invLookupStep env st t v h hc he

theorem lookupS_sound (env : Env) (t : String) (st : CState) (h : Inv env st)
    (r : List Doc) (hr : (dbpedia_lookupS env t st).1 = .ok r) :
    dbpedia_lookup env t = .ok r := by
  unfold dbpedia_lookupS at hr
  cases hc : alGet st.lookupCache t with
  | some v =>
    rw [hc] at hr
    simp at hr
    rw [← hr]
    exact h.lookupSound t v hc
  | none =>
    rw [hc] at hr
    cases he : env.lookupResp t with
    | error e => rw [he] at hr; simp at hr
    | ok v =>
      rw [he] at hr
      simp at hr
      rw [← hr]
      exact he

theorem top1S_inv (env : Env) (t : String) (st : CState) (h : Inv env st) :
    Inv env (dbpedia_top1S env t st).2 := by
  have h1 : Inv env (dbpedia_lookupS env t st).2 := lookupS_inv env t st h
  unfold dbpedia_top1S
  split
  · exact h
  · split
    · rename_i e st1 hq
      rw [hq] at h1
      exact h1
    · rename_i r st1 hq
      rw [hq] at h1
      have hs : dbpedia_lookup env t = .ok r :=
        lookupS_sound env t st h r (by rw [hq])
      split
      · exact invTop1Step env st1 t none h1 (by simp [dbpedia_top1, hs])
      · split
        · exact h1
        · exact h1
        · rename_i d tail u us hres
          exact invTop1Step env st1 t (some u) h1 (by simp [dbpedia_top1, hs, hres])

theorem geocodeS_inv (env : Env) (u : Option String) (st : CState) (h : Inv env st) :
    Inv env (geocodeS env u st).2 := by
  unfold geocodeS
  split
  · exact h
  · rename_i hc
    split
    · rename_i e he
      exact invLog env st (Req.sparqlReq u) h
        (show (geocode env u).isOk = false by simp only [geocode, he]; rfl)
    · rename_i resp he
      split
      · rename_i e hg
        exact invLog env st (Req.sparqlReq u) h
          (show (geocode env u).isOk = false by simp only [geocode, he, hg]; rfl)
      · rename_i v hg
        exact invGeoStep env st u v h hc (by simp only [geocode, he, hg])

theorem runCall_inv (env : Env) (st : CState) (c : Call) (h : Inv env st) :
    Inv env (runCall env st c) := by
  cases c with
  | lookupCall t => exact lookupS_inv env t st h
  | top1Call t => exact top1S_inv env t st h
  | geocodeCall u => exact geocodeS_inv env u st h

theorem runCalls_inv (env : Env) (cs : List Call) (st : CState) (h : Inv env st) :
    Inv env (runCalls env cs st) := by
  induction cs generalizing st with
  | nil => exact h
  | cons c cs ih => exact ih _ (runCall_inv env st c h)

theorem initInv (env : Env) : Inv env initState := by
  constructor
  · intro t h'; simp [initState]
  · intro t h' hcnt; simp [initState] at hcnt
  · intro u h'; simp [initState]
  · intro u h' hcnt; simp [initState] at hcnt
  · intro t v hv; simp [initState, alGet] at hv
  · intro t v hv; simp [initState, alGet] at hv
  · intro u v hv; simp [initState, alGet] at hv

theorem lookupS_hit (env : Env) (t : String) (st : CState) (v : List Doc)
    (h : alGet st.lookupCache t = some v) : dbpedia_lookupS env t st = (.ok v, st) := by
  unfold dbpedia_lookupS
  rw [h]

theorem top1S_hit (env : Env) (t : String) (st : CState) (v : Option String)
    (h : alGet st.top1Cache t = some v) : dbpedia_top1S env t st = (.ok v, st) := by
  unfold dbpedia_top1S
  rw [h]

theorem geocodeS_hit (env : Env) (u : Option String) (st : CState) (v : Option ℚ × Option ℚ)
    (h : alGet st.geoCache u = some v) : geocodeS env u st = (.ok v, st) := by
  unfold geocodeS
  rw [h]

/-- C8 counterexample: a geocode call whose network request fails is not
memoized (`functools.cache` stores only normal returns), so a repeated
call with the same key issues a second network request — the request for
a distinct key is not always issued at most once. -/
theorem cache_failed_request_retried_cex :
    (runCalls envFail [Call.geocodeCall (some "u"), Call.geocodeCall (some "u")]
        initState).reqLog.count (Req.sparqlReq (some "u")) = 2 := by decide

/-- C8 amended: within a run, a key whose underlying computation succeeds
triggers at most one network request no matter how many times the cached
functions are invoked; a call that finds its key memoized returns the
stored value and leaves the state (including the request log) unchanged;
and every memoized geocode value is exactly what the underlying
computation returns.  (A call that raises is not memoized and is retried,
as the counterexample shows.) -/
theorem cache_at_most_once :
    (∀ env cs t, (env.lookupResp t).isOk = true →
      ((runCalls env cs initState).reqLog.count (Req.lookupReq t)) ≤ 1) ∧
    (∀ env cs u, (geocode env u).isOk = true →
      ((runCalls env cs initState).reqLog.count (Req.sparqlReq u)) ≤ 1) ∧
    (∀ env t st v, alGet st.lookupCache t = some v →
      dbpedia_lookupS env t st = (.ok v, st)) ∧
    (∀ env t st v, alGet st.top1Cache t = some v →
      dbpedia_top1S env t st = (.ok v, st)) ∧
    (∀ env u st v, alGet st.geoCache u = some v →
      geocodeS env u st = (.ok v, st)) ∧
    (∀ env cs u v, alGet (runCalls env cs initState).geoCache u = some v →
      geocode env u = .ok v) := by
  refine ⟨?_, ?_, ?_, ?_, ?_, ?_⟩
  · intro env cs t h'
    exact (runCalls_inv env cs initState (initInv env)).lookupCount t h'
  · intro env cs u h'
    exact (runCalls_inv env cs initState (initInv env)).geoCount u h'
  · intro env t st v h'
    exact lookupS_hit env t st v h'
  · intro env t st v h'
    exact top1S_hit env t st v h'
  · intro env u st v h'
    exact geocodeS_hit env u st v h'
  · intro env cs u v h'
    exact (runCalls_inv env cs initState (initInv env)).geoSound u v h'

/-- C8 witness: the at-most-once bound applied to two repeated geocode
calls for the resolvable key `"dbr:Paris"`. -/
theorem cache_at_most_once_witness :
    (runCalls envParisLyon
        [Call.geocodeCall (some "dbr:Paris"), Call.geocodeCall (some "dbr:Paris")]
        initState).reqLog.count (Req.sparqlReq (some "dbr:Paris")) ≤ 1 :=
  cache_at_most_once.2.1 envParisLyon
    [Call.geocodeCall (some "dbr:Paris"), Call.geocodeCall (some "dbr:Paris")]
    (some "dbr:Paris") (by decide)

end Dashboard
